import Mathlib

/-!
Verification of the midi-graph audio engine against its natural-language
specification.

The Rust sources are embedded shallowly:
* machine integers (`usize`, `u8`, `u32`) become `ℕ` / `ℤ`; the saturating
  truncating casts from `f64` are modelled explicitly;
* `f32` / `f64` sample and timing values become `ℚ`; every concrete input used
  below only exercises arithmetic that is exact in binary floating point
  (small dyadic rationals), so the rational model agrees with the Rust
  evaluation on those inputs;
* `Vec<f32>` buffers become `List ℚ`; in-place mutation becomes functional
  update; fallible constructors return `Except`;
* trait objects used as children of a composite are abstracted by the list of
  events delivered to them, or by a concrete toy consumer, as noted at each
  definition.
-/

/-! ## Constants (src/lib.rs, `consts`) -/

def PLAYBACK_SAMPLE_RATE : ℕ := 48000

def CHANNEL_COUNT : ℕ := 2

def BUFFER_SIZE : ℕ := 2048

/-- Value of `usize::MAX` for the 64-bit targets the crate builds for. -/
def USIZE_MAX : ℕ := 2 ^ 64 - 1

/-- Rust's saturating cast `f64 as usize`: truncation toward zero, negative
values clamped to zero (exact on the rational model). -/
def rustUsizeOfRat (q : ℚ) : ℕ := (Int.floor q).toNat

/-- Rust's saturating cast `f64 as isize`: truncation toward zero. -/
def rustIsizeOfRat (q : ℚ) : ℤ :=
  if 0 ≤ q then Int.floor q else -Int.floor (-q)

/-! ## Errors (src/error.rs)

Only the `User` variant is produced by the code under verification; message
`format!` interpolations are elided, keeping the fixed text. -/

inductive MgError where
  | user (message : String)
deriving DecidableEq

def MgError.isUser : MgError → Bool
  | .user _ => true

/-! ## Event model of the `src/node` tree (`Message`, `Event`, `EventTarget`,
`Balance`), as used by `node/generator/square.rs` and `node/font/mod.rs`. -/

inductive Balance where
  | both
  | left
  | right
  | pan (p : ℚ)
deriving DecidableEq

inductive EventTarget where
  | broadcast
  | node (id : ℕ)
deriving DecidableEq

inductive Event where
  | noteOn (note : ℕ) (vel : ℚ)
  | noteOff (note : ℕ) (vel : ℚ)
  | pitchMultiplier (m : ℚ)
  | sourceBalance (b : Balance)
  | volume (v : ℚ)
  | fade (fromVol toVol seconds : ℚ)
  | seekWhenIdeal (anchor : Option ℕ)
  | notesOff
deriving DecidableEq

structure Message where
  target : EventTarget
  data : Event
deriving DecidableEq

/-! ## NoteRange (src/source/mod.rs) -/

structure NoteRange where
  lower_inclusive : ℕ
  upper_inclusive : ℕ
deriving DecidableEq

def NoteRange.contains (r : NoteRange) (note : ℕ) : Bool :=
  decide (r.lower_inclusive ≤ note) && decide (r.upper_inclusive ≥ note)

/-! ## SoundFont (src/node/font/mod.rs)

A child (`GraphNode`) of the SoundFont is abstracted by the list of messages
delivered to it through `on_event`: delivering an event appends it. -/

abbrev ChildLog : Type := List Message

structure SoundFont where
  node_id : ℕ
  ranges : List (NoteRange × ChildLog)
deriving DecidableEq

/-- Source `SoundFont::try_consume_event` (src/node/font/mod.rs lines 59-79). -/
def SoundFont.try_consume_event (f : SoundFont) (event : Message) :
    SoundFont × Bool :=
  let note : Option ℕ :=
    match event.data with
    | .noteOn note _ => some note
    | .noteOff note _ => some note
    | _ => none
  match note with
  | some n =>
      ({ f with ranges := f.ranges.map fun rc =>
            if rc.1.contains n then (rc.1, rc.2 ++ [event]) else rc },
        true)
  | none =>
      ({ f with ranges := f.ranges.map fun rc => (rc.1, rc.2 ++ [event]) },
        true)

/-- Source `SoundFont::duplicate` (src/node/font/mod.rs lines 55-57). -/
def SoundFont.duplicate (_f : SoundFont) : Except MgError SoundFont :=
  .error (.user ("SoundFont cannot be duplicated"))

/-- Source `SoundFont::replace_children` (src/node/font/mod.rs lines 93-97); the
receiver is returned unchanged alongside the result, reflecting that the Rust
body returns before touching `self`. -/
def SoundFont.replace_children (f : SoundFont) (_children : List ChildLog) :
    SoundFont × Except MgError Unit :=
  (f, .error (.user ("SoundFont does not support replacing its children")))

/-- The routing rule as the specification words it: note events go to ranges
containing the key, any other event goes to every range. -/
def specRoutesTo (event : Message) (r : NoteRange) : Bool :=
  match event.data with
  | .noteOn n _ => r.contains n
  | .noteOff n _ => r.contains n
  | _ => true

/-! ## SF2 loading (src/file/font.rs, `soundfont_from_reader`) -/

inductive ZoneNode where
  | polyphonyWrapped (max_voices : ℕ)
  | bareSampler
deriving DecidableEq

/-- The per-zone node shape chosen by `soundfont_from_reader`
(src/file/font.rs lines 89-95): `polyphony_voices` of 0 or 1 wraps the zone's
sampler in `PolyphonyNode::new(None, polyphony_voices, source)`, any other
value passes the bare sampler through. -/
def soundfont_zone_node (polyphony_voices : ℕ) : ZoneNode :=
  match polyphony_voices with
  | 0 => .polyphonyWrapped 0
  | 1 => .polyphonyWrapped 1
  | _ => .bareSampler

/-! ## Event model of the `src/source` tree (src/source/mod.rs):
`NodeEvent`, `NoteEvent`, `NodeControlEvent`, as consumed by
`source/wav.rs` and `source/midi/track.rs`. -/

inductive NoteEvent where
  | noteOn (vel : ℚ)
  | noteOff (vel : ℚ)
deriving DecidableEq

inductive NodeControlEvent where
  | mixerBalance (b : ℚ)
  | volume (v : ℚ)
  | fade (fromVol toVol seconds : ℚ)
  | seekWhenIdeal (toAnchor : Option ℕ)
  | unknown
deriving DecidableEq

inductive NodeEvent where
  /-- Variant `NodeEvent::Broadcast(BroadcastControl::NotesOff)`. -/
  | broadcastNotesOff
  | note (note : ℕ) (event : NoteEvent)
  | nodeControl (node_id : ℕ) (event : NodeControlEvent)
deriving DecidableEq

/-! ## midly track events, restricted to the constructors the scheduler in
src/source/midi/track.rs inspects: channel Note messages are matched
explicitly, everything else (tempo meta, end-of-track meta, ...) falls into
the wildcard arm, so it is enough to keep those cases distinguishable. -/

inductive MidiMessage where
  | noteOn (key vel : ℕ)
  | noteOff (key vel : ℕ)
  | otherMessage
deriving DecidableEq

inductive TrackEventKind where
  | midi (channel : ℕ) (message : MidiMessage)
  /-- Variant `TrackEventKind::Meta(MetaMessage::Tempo(us_per_quarter))`. -/
  | metaTempo (us_per_quarter : ℕ)
  /-- Variant `TrackEventKind::Meta(MetaMessage::EndOfTrack)`. -/
  | metaEndOfTrack
  | otherKind
deriving DecidableEq

structure TrackEvt where
  delta : ℕ
  kind : TrackEventKind
deriving DecidableEq

/-! ## MidiTrackSource (src/source/midi/track.rs)

The boxed `consumer: Box<dyn Node>` is abstracted by a state type `C`
together with its two `Node` operations, supplied as `ConsumerOps`. -/

structure ConsumerOps (C : Type) where
  /-- Operation `Node::on_event` of the consumer. -/
  on_event : C → NodeEvent → C
  /-- Operation `Node::fill_buffer` of the consumer: accumulates into the slice it is
  handed and returns the updated slice (same length for a faithful consumer). -/
  fill : C → List ℚ → C × List ℚ

structure MidiTrackSource (C : Type) where
  /-- Content of `smf.tracks[track_no]`, the one track this source plays. -/
  track : List TrackEvt
  channel_no : ℕ
  samples_per_tick : ℚ
  has_finished : Bool
  next_event_index : ℕ
  event_ticks_progress : ℤ
  consumer : C
deriving DecidableEq

structure NodeEventOnChannel where
  channel : ℕ
  event : NodeEvent
deriving DecidableEq

/-- Source `MidiTrackSource::note_event_from_midi_event` (src/source/midi/track.rs
lines 53-81): channel NoteOn / NoteOff map to node note events with velocity
`vel / 127`; every velocity is passed through unchanged (there is no special
case for velocity zero) and every other event kind yields `None`. -/
def note_event_from_midi_event (event : TrackEvt) : Option NodeEventOnChannel :=
  match event.kind with
  | .midi channel (.noteOn key vel) =>
      some ⟨channel, .note key (.noteOn ((vel : ℚ) / 127))⟩
  | .midi channel (.noteOff key vel) =>
      some ⟨channel, .note key (.noteOff ((vel : ℚ) / 127))⟩
  | _ => none

/-- Source `MidiTrackSource::on_event_reached` (src/source/midi/track.rs lines 41-51). -/
def on_event_reached {C : Type} (ops : ConsumerOps C) (s : MidiTrackSource C)
    (event : Option NodeEventOnChannel) : MidiTrackSource C :=
  match event with
  | none => s
  | some e =>
      if e.channel ≠ s.channel_no then s
      else { s with consumer := ops.on_event s.consumer e.event }

/-- The `loop` in `MidiTrackSource::fill_buffer` (src/source/midi/track.rs
lines 101-125). `fuel` is only a recursion bound: every source iteration
either returns or advances `next_event_index` by one, so starting the fuel at
`track.length + 1 - next_event_index` (see `MidiTrackSource.fill_buffer`) it
is never exhausted. Indexing `track_data[next_event_index]` out of bounds
would panic in the source; that (unreachable) case returns the state
unchanged here. -/
def midi_track_fill_loop {C : Type} (ops : ConsumerOps C) (fuel : ℕ)
    (s : MidiTrackSource C) (buffer : List ℚ) : MidiTrackSource C × List ℚ :=
  match fuel with
  | 0 => (s, buffer)
  | fuel + 1 =>
    match s.track.get? s.next_event_index with
    | none => (s, buffer)
    | some next_event =>
      let event_ticks_delta : ℤ := (next_event.delta : ℤ)
      let ticks_until_event : ℤ := event_ticks_delta - s.event_ticks_progress
      let samples_until_event : ℕ :=
        rustUsizeOfRat ((ticks_until_event : ℚ) * s.samples_per_tick)
      let samples_available_per_channel : ℕ := buffer.length / CHANNEL_COUNT
      if samples_until_event > samples_available_per_channel then
        let res := ops.fill s.consumer buffer
        ({ s with
            consumer := res.1
            event_ticks_progress := s.event_ticks_progress +
              rustIsizeOfRat ((samples_available_per_channel : ℚ) / s.samples_per_tick) },
          res.2)
      else
        let buffer_samples_to_fill := samples_until_event * CHANNEL_COUNT
        let res := ops.fill s.consumer (buffer.take buffer_samples_to_fill)
        let buffer' := res.2 ++ buffer.drop buffer_samples_to_fill
        let s' := { s with
            consumer := res.1
            event_ticks_progress := 0
            next_event_index := s.next_event_index + 1 }
        if s'.next_event_index ≥ s'.track.length then
          ({ s' with has_finished := true }, buffer')
        else
          midi_track_fill_loop ops fuel
            (on_event_reached ops s' (note_event_from_midi_event next_event))
            buffer'

/-- Source `MidiTrackSource::fill_buffer` (src/source/midi/track.rs lines 87-126).
Note that after an event internal to the pull is reached, the source code
keeps writing through the *original* `buffer` slice (it never re-slices
`buffer` past the samples already rendered), which the embedding reproduces
faithfully. -/
def MidiTrackSource.fill_buffer {C : Type} (ops : ConsumerOps C)
    (s : MidiTrackSource C) (buffer : List ℚ) : MidiTrackSource C × List ℚ :=
  if s.has_finished then (s, buffer)
  else midi_track_fill_loop ops (s.track.length + 1 - s.next_event_index) s buffer

/-! ## WavSource (src/source/wav.rs) -/

inductive SampleFormat where
  | float
  | int
deriving DecidableEq

/-- Mirror of `hound::WavSpec`, restricted to the fields `WavSource` inspects. -/
structure WavSpec where
  channels : ℕ
  sample_rate : ℕ
  bits_per_sample : ℕ
  sample_format : SampleFormat
deriving DecidableEq

structure LoopRange where
  start_frame : ℕ
  end_frame : ℕ
deriving DecidableEq

inductive WStatus where
  | ok
  | ended
deriving DecidableEq

structure WavSource where
  is_on : Bool
  source_note : ℕ
  source_channel_count : ℕ
  loop_start_data_position : ℕ
  loop_end_data_position : ℕ
  data_position : ℕ
  current_note : ℕ
  source_data : List ℚ
  playback_scale : ℚ
deriving DecidableEq

/-- Source `WavSource::validate_spec` (src/source/wav.rs lines 123-143). -/
def validate_spec (spec : WavSpec) : Except MgError Unit :=
  if spec.channels = 0 ∨ spec.channels > 2 then
    .error (.user ("channels is not supported"))
  else if spec.sample_format ≠ SampleFormat.float then
    .error (.user ("Sample format is not supported"))
  else if spec.bits_per_sample ≠ 32 then
    .error (.user ("bits per sample is not supported"))
  else .ok ()

/-- Source `WavSource::validate_loop_range` (src/source/wav.rs lines 103-121):
the predicate accepted by the source is
`start_frame ≤ frames_in_data || end_frame > frames_in_data`. -/
def validate_loop_range (data : List ℚ) (channel_count : ℕ)
    (loop_range : Option LoopRange) : Except MgError Unit :=
  match loop_range with
  | none => .ok ()
  | some range =>
    let frames_in_data := data.length / channel_count
    if range.start_frame ≤ frames_in_data ∨ range.end_frame > frames_in_data then
      .ok ()
    else
      .error (.user ("Invalid sample loop range"))

/-- Source `WavSource::new` (src/source/wav.rs lines 72-91). -/
def WavSource.new (sample_rate : ℕ) (channels : ℕ) (source_note : ℕ)
    (loop_range : LoopRange) (data : List ℚ) : WavSource where
  is_on := false
  source_note := source_note
  source_channel_count := channels
  loop_start_data_position := loop_range.start_frame * channels
  loop_end_data_position := loop_range.end_frame * channels
  data_position := data.length
  current_note := 0
  source_data := data
  playback_scale := (PLAYBACK_SAMPLE_RATE : ℚ) / (sample_rate : ℚ)

/-- Source `WavSource::new_from_data` (src/source/wav.rs lines 51-70). -/
def WavSource.new_from_data (spec : WavSpec) (source_note : ℕ) (data : List ℚ)
    (loop_range : Option LoopRange) : Except MgError WavSource :=
  match validate_spec spec with
  | .error e => .error e
  | .ok _ =>
    match validate_loop_range data spec.channels loop_range with
    | .error e => .error e
    | .ok _ =>
      let range := match loop_range with
        | some range => range
        | none => LoopRange.mk 0 (USIZE_MAX / spec.channels)
      .ok (WavSource.new spec.sample_rate spec.channels source_note range data)

/-- Source `WavSource::on_event` (src/source/wav.rs lines 179-199). -/
def WavSource.on_event (s : WavSource) (event : NodeEvent) : WavSource :=
  match event with
  | .note note (.noteOn _) =>
      { s with is_on := true, data_position := 0, current_note := note }
  | .note note (.noteOff _) =>
      if s.current_note ≠ note ∨ s.is_on = false then s
      else { s with is_on := false }
  | _ => s

/-- Modelled from the spec: `util::relative_pitch_ratio_of(key, source)`
(called at src/source/wav.rs line 230; its defining file is not part of the
snapshot, src/source/util.rs only has `relative_pitch_of` and `frequency_of`).
Per the spec (§4.3) the value is the frequency ratio `2^((key − source)/12)`.
The rational model uses the integer part of the semitone offset divided by 12,
hence it is exact precisely on whole-octave offsets — the only inputs at which
it is used below. -/
def relative_pitch_ratio_of (key source_note : ℕ) : ℚ :=
  (2 : ℚ) ^ (((key : ℤ) - (source_note : ℤ)) / 12)

/-- The `while` loop of `WavSource::stretch_buffer` (src/source/wav.rs lines
151-169). `fuel` only bounds the recursion: `dst_index` grows by 2 each
iteration while the loop requires `dst_index < dst.length`, so
`dst.length / 2 + 1` iterations are never exhausted. `dst[dst_index + 1]` (and
`src[src_index + 1]` in the stereo arm) panic in Rust when out of bounds; here
the update is dropped / the sample reads 0, which no run below reaches. -/
def stretch_loop (src : List ℚ) (src_channels : ℕ) (rate : ℚ) (fuel : ℕ)
    (dst : List ℚ) (src_index dst_index : ℕ) : ℕ × ℕ × List ℚ :=
  match fuel with
  | 0 => (src_index, dst_index, dst)
  | fuel + 1 =>
    if src_index < src.length ∧ dst_index < dst.length then
      let dst :=
        match src_channels with
        | 1 =>
          let sample := src.getD src_index 0
          let dst := dst.set dst_index (dst.getD dst_index 0 + sample)
          dst.set (dst_index + 1) (dst.getD (dst_index + 1) 0 + sample)
        | 2 =>
          let dst := dst.set dst_index (dst.getD dst_index 0 + src.getD src_index 0)
          dst.set (dst_index + 1) (dst.getD (dst_index + 1) 0 + src.getD (src_index + 1) 0)
        | _ => dst
      let dst_index := dst_index + 2
      let src_index := rustUsizeOfRat (((dst_index / 2 : ℕ) : ℚ) * rate) * src_channels
      stretch_loop src src_channels rate fuel dst src_index dst_index
    else (src_index, dst_index, dst)

/-- Source `WavSource::stretch_buffer` (src/source/wav.rs lines 145-173), returning
`(src_data_points_advanced, dst_data_points_advanced, updated dst)`. -/
def stretch_buffer (src : List ℚ) (src_channels : ℕ) (dst : List ℚ)
    (source_frames_per_output_frame : ℚ) : ℕ × ℕ × List ℚ :=
  stretch_loop src src_channels source_frames_per_output_frame
    (dst.length / 2 + 1) dst 0 0

/-- The `while remaining_buffer.len() > 0` loop of `WavSource::fill_buffer`
(src/source/wav.rs lines 237-269). `remaining_buffer = &mut buffer[offset..]`
is tracked as the pair `(buffer, offset)`. The source loop need not terminate
(for instance with an empty loop range while `is_on`), so the embedding takes
fuel and returns `none` when it is exhausted; a `some` result is therefore a
faithful terminating run. -/
def wav_fill_loop (rate : ℚ) (fuel : ℕ) (s : WavSource) (buffer : List ℚ)
    (offset : ℕ) : Option (WavSource × List ℚ × WStatus) :=
  match fuel with
  | 0 => none
  | fuel + 1 =>
    if buffer.length - offset = 0 then some (s, buffer, .ok)
    else if s.data_position ≥ s.source_data.length then
      some ({ s with is_on := false }, buffer, .ended)
    else
      let source_end_point :=
        if s.is_on then min s.source_data.length s.loop_end_data_position
        else s.source_data.length
      let src := (s.source_data.drop s.data_position).take
        (source_end_point - s.data_position)
      let res := stretch_buffer src s.source_channel_count (buffer.drop offset) rate
      let src_data_points_advanced := res.1
      let dst_data_points_advanced := res.2.1
      let buffer' := buffer.take offset ++ res.2.2
      let s' := { s with data_position := s.data_position + src_data_points_advanced }
      if s'.data_position ≠ source_end_point then some (s', buffer', .ok)
      else if s'.is_on ∧ source_end_point = s'.loop_end_data_position then
        let s'' := { s' with data_position := s'.loop_start_data_position }
        let remaining_dst_data_points := (buffer.length - offset) - dst_data_points_advanced
        let offset' := buffer'.length - remaining_dst_data_points
        wav_fill_loop rate fuel s'' buffer' offset'
      else some ({ s' with is_on := false }, buffer', .ended)

/-- Source `WavSource::fill_buffer` (src/source/wav.rs lines 219-272). -/
def WavSource.fill_buffer (s : WavSource) (buffer : List ℚ) :
    Option (WavSource × List ℚ × WStatus) :=
  if buffer.length = 0 then some (s, buffer, .ok)
  else
    let s :=
      if s.is_on ∧ s.data_position ≥ s.loop_end_data_position then
        { s with data_position :=
            s.data_position - (s.loop_end_data_position - s.loop_start_data_position) }
      else s
    let relative_pitch := relative_pitch_ratio_of s.current_note s.source_note
    let source_frames_per_output_frame := relative_pitch * s.playback_scale
    wav_fill_loop source_frames_per_output_frame (buffer.length + 2) s buffer 0

/-! ## SquareWaveNode (src/node/generator/square.rs) -/

structure SquareWaveNode where
  node_id : ℕ
  is_on : Bool
  current_note : ℕ
  current_frequency : ℚ
  balance : Balance
  cycle_progress_samples : ℚ
  period_samples_a440 : ℚ
  peak_amplitude : ℚ
  note_velocity : ℚ
  modulated_volume : ℚ
  duty_cycle : ℚ
deriving DecidableEq

/-- Source `SquareWaveNode::new` (src/node/generator/square.rs lines 69-83), with the
auto-assigned id made explicit. -/
def SquareWaveNode.new (node_id : ℕ) (balance : Balance) (amplitude : ℚ)
    (duty_cycle : ℚ) : SquareWaveNode where
  node_id := node_id
  is_on := false
  current_note := 0
  current_frequency := 10
  balance := balance
  cycle_progress_samples := 0
  period_samples_a440 := (PLAYBACK_SAMPLE_RATE : ℚ) / 440
  peak_amplitude := amplitude
  note_velocity := 1
  modulated_volume := 1
  duty_cycle := duty_cycle

/-- Source `SquareWaveNode::try_consume_event` (src/node/generator/square.rs lines
105-130). `freqOf` stands for `util::frequency_of` (440·2^((k−69)/12) computed
in `f32`, irrational in general); every statement below holds for an arbitrary
such function, so it is taken as a parameter. -/
def SquareWaveNode.try_consume_event (freqOf : ℕ → ℚ) (s : SquareWaveNode)
    (event : Message) : SquareWaveNode × Bool :=
  match event.data with
  | .noteOff note _ =>
      (if note = s.current_note ∨ event.target = EventTarget.broadcast then
          { s with is_on := false }
        else s, true)
  | .noteOn note vel =>
      ({ s with
          is_on := true
          current_note := note
          current_frequency := freqOf note
          note_velocity := vel }, true)
  | .pitchMultiplier multiplier =>
      ({ s with current_frequency := multiplier * freqOf s.current_note }, true)
  | .sourceBalance balance =>
      ({ s with balance := balance }, true)
  | .volume volume =>
      ({ s with modulated_volume := volume }, true)
  | _ => (s, true)

/-- The `Balance` to per-channel gain mapping used in `fill_buffer`
(src/node/generator/square.rs lines 151-156). -/
def balance_gains (b : Balance) : ℚ × ℚ :=
  match b with
  | .both => (1, 1)
  | .left => (1, 0)
  | .right => (0, 1)
  | .pan p => (1 - p, p)

/-- The `for i in (0..size).step_by(CHANNEL_COUNT)` loop of
`SquareWaveNode::fill_buffer` (src/node/generator/square.rs lines 157-169),
returning the final `stretched_progress` and the updated buffer. A trailing
element of an odd-length buffer (on which the source would panic at
`buffer[i + 1]`) is left untouched. -/
def square_loop (pitch_period_samples duty_cycle current_amplitude
    left_amplitude right_amplitude : ℚ) :
    ℚ → List ℚ → ℚ × List ℚ
  | stretched_progress, b0 :: b1 :: rest =>
    let advanced := stretched_progress + 1
    let wrapped :=
      if advanced ≥ pitch_period_samples then advanced - pitch_period_samples
      else advanced
    let duty := wrapped / pitch_period_samples
    let amplitude :=
      if duty > duty_cycle then current_amplitude else -current_amplitude
    let res := square_loop pitch_period_samples duty_cycle current_amplitude
      left_amplitude right_amplitude wrapped rest
    (res.1, (b0 + left_amplitude * amplitude) ::
            (b1 + right_amplitude * amplitude) :: res.2)
  | stretched_progress, rest => (stretched_progress, rest)

/-- Source `SquareWaveNode::fill_buffer` (src/node/generator/square.rs lines 134-173). -/
def SquareWaveNode.fill_buffer (s : SquareWaveNode) (buffer : List ℚ) :
    SquareWaveNode × List ℚ :=
  if s.is_on = false then (s, buffer)
  else
    let pitch_period_samples := (PLAYBACK_SAMPLE_RATE : ℚ) / s.current_frequency
    let stretched_progress :=
      s.cycle_progress_samples * pitch_period_samples / s.period_samples_a440
    let current_amplitude := s.peak_amplitude * s.note_velocity * s.modulated_volume
    let gains := balance_gains s.balance
    let res := square_loop pitch_period_samples s.duty_cycle current_amplitude
      gains.1 gains.2 stretched_progress buffer
    ({ s with cycle_progress_samples :=
        res.1 * s.period_samples_a440 / pitch_period_samples }, res.2)

/-! ## Concrete consumers and small helpers used by the theorems below -/

/-- A toy channel subtree for exercising `MidiTrackSource`: its state is
whether a note is held, and while on it adds `1` to every sample it is asked
to fill (a node that accumulates, per the spec's accumulation discipline). -/
def toggleOps : ConsumerOps Bool where
  on_event c e :=
    match e with
    | .note _ (.noteOn _) => true
    | .note _ (.noteOff _) => false
    | _ => c
  fill c buf := (c, if c then buf.map (fun x => x + 1) else buf)

def exceptIsOk {ε α : Type} : Except ε α → Bool
  | .ok _ => true
  | .error _ => false

/-- Whether a translated track event is a NoteOff node event. -/
def dispatchedAsNoteOff : Option NodeEventOnChannel → Bool
  | some ⟨_, .note _ (.noteOff _)⟩ => true
  | _ => false

/-! ## C1 -/

/-- A track whose first event is a NoteOn at tick offset 2, with
`samples_per_tick = 1` (for instance tempo 500000 µs/quarter with 24000
ticks per quarter: 500000 / 1e6 × 48000 / 24000 = 1). -/
def c1_track : List TrackEvt :=
  [⟨2, .midi 0 (.noteOn 60 100)⟩, ⟨1000, .midi 0 (.noteOff 60 0)⟩]

def c1_state : MidiTrackSource Bool :=
  { track := c1_track, channel_no := 0, samples_per_tick := 1,
    has_finished := false, next_event_index := 0, event_ticks_progress := 0,
    consumer := false }

/-- C1: a MIDI event at cumulative tick offset Δ takes effect at output frame
⌊Δ·T·48000/(Q·1e6)⌋ of its track and the frames of the pull before that
boundary are unaffected by the event. REFUTED at this input: the NoteOn sits
at tick 2, i.e. frame boundary ⌊2·1⌋ = 2, so of the 4-frame pull the claim
requires frames 0 and 1 (samples 0..3) to stay silent and only frames 2 and 3
to carry the note. The code reaches the event after rendering 2 frames into
`buffer[0..4]`, but then renders the remainder of the pull through the
*unsliced* `buffer` again (src/source/midi/track.rs line 108 writes through
`buffer` from index 0), so the post-event audio lands in samples 0..7 and
every sample of the pull reads 1. -/
theorem c1_pre_boundary_frames_affected_by_event :
    (MidiTrackSource.fill_buffer toggleOps c1_state (List.replicate 8 0)).2 =
        List.replicate 8 1 ∧
      (MidiTrackSource.fill_buffer toggleOps c1_state (List.replicate 8 0)).1.next_event_index = 1 := by
  constructor <;>
    norm_num [MidiTrackSource.fill_buffer, midi_track_fill_loop, c1_state,
      c1_track, toggleOps, on_event_reached, note_event_from_midi_event,
      rustUsizeOfRat, rustIsizeOfRat, CHANNEL_COUNT, List.replicate]

/-! ## C3 -/

theorem on_event_reached_samples_per_tick {C : Type} (ops : ConsumerOps C)
    (s : MidiTrackSource C) (e : Option NodeEventOnChannel) :
    (on_event_reached ops s e).samples_per_tick = s.samples_per_tick := by
  cases e with
  | none => rfl
  | some e =>
    simp only [on_event_reached]
    split <;> rfl

theorem midi_track_fill_loop_samples_per_tick {C : Type} (ops : ConsumerOps C)
    (fuel : ℕ) :
    ∀ (s : MidiTrackSource C) (buffer : List ℚ),
      (midi_track_fill_loop ops fuel s buffer).1.samples_per_tick =
        s.samples_per_tick := by
  induction fuel with
  | zero => intro s buffer; rfl
  | succ fuel ih =>
    intro s buffer
    rw [midi_track_fill_loop]
    cases hget : s.track.get? s.next_event_index with
    | none => rfl
    | some next_event =>
      simp only []
      split
      · rfl
      · split
        · rfl
        · rw [ih, on_event_reached_samples_per_tick]

/-- C3 (amended): `samples_per_tick` is fixed at construction; no pull of
`MidiTrackSource::fill_buffer` ever changes it — in particular reaching a Set
Tempo meta-event does not recompute it, and events after a tempo change keep
being scheduled with the construction-time conversion factor. -/
theorem c3_samples_per_tick_never_recomputed {C : Type} (ops : ConsumerOps C)
    (s : MidiTrackSource C) (buffer : List ℚ) :
    (MidiTrackSource.fill_buffer ops s buffer).1.samples_per_tick =
      s.samples_per_tick := by
  rw [MidiTrackSource.fill_buffer]
  split
  · rfl
  · exact midi_track_fill_loop_samples_per_tick ops _ s buffer

/-- A track that opens with a Set Tempo meta-event (250000 µs per quarter).
With ticks-per-quarter 480 the construction-time tempo 500000 gives
`samples_per_tick = 500000 / 1e6 × 48000 / 480 = 50`; the claim says reaching
the tempo event must change it to `250000 / 1e6 × 48000 / 480 = 25`. -/
def c3_state : MidiTrackSource Bool :=
  { track := [⟨0, .metaTempo 250000⟩, ⟨5, .midi 0 (.noteOn 60 100)⟩],
    channel_no := 0, samples_per_tick := 50, has_finished := false,
    next_event_index := 0, event_ticks_progress := 0, consumer := false }

/-- C3 counterexample: after a pull in which the scheduler consumes the Set
Tempo meta-event (the cursor has moved past it to index 1), `samples_per_tick`
still holds the construction-time value 50, not the claimed
`250000 / 1e6 × 48000 / 480 = 25`: the wildcard arm of
`note_event_from_midi_event` drops tempo meta-events and nothing in
src/source/midi/track.rs writes `samples_per_tick` after `new`. -/
theorem c3_tempo_event_reached_but_ignored :
    (MidiTrackSource.fill_buffer toggleOps c3_state (List.replicate 8 0)).1.next_event_index = 1 ∧
      (MidiTrackSource.fill_buffer toggleOps c3_state (List.replicate 8 0)).1.samples_per_tick = 50 ∧
      ¬ (50 : ℚ) = 250000 / 1000000 * 48000 / 480 := by
  refine ⟨?_, ?_, by norm_num⟩ <;>
    norm_num [MidiTrackSource.fill_buffer, midi_track_fill_loop, c3_state,
      toggleOps, on_event_reached, note_event_from_midi_event,
      rustUsizeOfRat, rustIsizeOfRat, CHANNEL_COUNT, List.replicate]

/-! ## C4 -/

/-- C4 (amended): a channel NoteOn with velocity 0 is translated by the
scheduler into a NoteOn node event with velocity 0 — it is *not* converted to
a NoteOff (src/source/midi/track.rs lines 53-66 map NoteOn unconditionally). -/
theorem c4_velocity_zero_noteon_stays_noteon (delta channel key : ℕ) :
    note_event_from_midi_event ⟨delta, .midi channel (.noteOn key 0)⟩ =
      some ⟨channel, .note key (.noteOn 0)⟩ := by
  norm_num [note_event_from_midi_event]

/-- C4 counterexample: the concrete SMF event NoteOn(channel 3, key 60,
velocity 0) is dispatched as a NoteOn (velocity 0), not as a NoteOff as the
claim requires. -/
theorem c4_velocity_zero_dispatched_as_noteon :
    note_event_from_midi_event ⟨0, .midi 3 (.noteOn 60 0)⟩ =
        some ⟨3, .note 60 (.noteOn 0)⟩ ∧
      dispatchedAsNoteOff (note_event_from_midi_event ⟨0, .midi 3 (.noteOn 60 0)⟩) = false := by
  constructor <;> norm_num [note_event_from_midi_event, dispatchedAsNoteOff]

/-! ## C5 -/

/-- C5: building a SoundFont from SF2 should multiplex each zone's sampler
into `polyphony_voices` round-robin voices when `polyphony_voices ≥ 2` and
pass a single voice through for 0 or 1. REFUTED: the `match` in
`soundfont_from_reader` (src/file/font.rs lines 89-95) has the arms the other
way around — `polyphony_voices = 2` yields the bare sampler with no
multiplexing, while the degenerate counts 0 and 1 are the ones wrapped in
`PolyphonyNode`. -/
theorem c5_polyphony_match_arms_inverted :
    soundfont_zone_node 2 = ZoneNode.bareSampler ∧
      soundfont_zone_node 8 = ZoneNode.bareSampler ∧
      soundfont_zone_node 1 = ZoneNode.polyphonyWrapped 1 ∧
      soundfont_zone_node 0 = ZoneNode.polyphonyWrapped 0 := by
  decide

/-! ## C9 -/

/-- C9: `SoundFont::duplicate` always returns a User error and
`SoundFont::replace_children` returns a User error for every argument list,
leaving the SoundFont's ranges and children unchanged (`replace_children`
returns before touching `self`, so the state component below is the untouched
receiver). -/
theorem c9_soundfont_refuses_duplicate_and_replace (f : SoundFont)
    (children : List ChildLog) :
    f.duplicate = Except.error (MgError.user ("SoundFont cannot be duplicated")) ∧
      f.replace_children children =
        (f, Except.error
          (MgError.user ("SoundFont does not support replacing its children"))) :=
  ⟨rfl, rfl⟩

/-! ## C6 -/

/-- C6: `WavSource::new_from_data` should return a User error whenever the
requested loop range is invalid, i.e. whenever `start < end ≤ frames_in_data`
fails. REFUTED: for 10 frames of mono data and the backwards range
`start_frame = 5, end_frame = 3` (so `5 < 3` fails), construction succeeds,
because `validate_loop_range` only rejects when
`start_frame ≤ frames_in_data || end_frame > frames_in_data` is false
(src/source/wav.rs lines 112-113), and `5 ≤ 10` already satisfies it. -/
theorem c6_invalid_loop_range_accepted :
    exceptIsOk (WavSource.new_from_data ⟨1, 48000, 32, .float⟩ 69
        (List.replicate 10 0) (some ⟨5, 3⟩)) = true ∧
      ¬ ((5 : ℕ) < 3 ∧ (3 : ℕ) ≤ (List.replicate 10 (0 : ℚ)).length / 1) := by
  refine ⟨?_, by norm_num⟩
  norm_num [WavSource.new_from_data, WavSource.new, validate_spec,
    validate_loop_range, exceptIsOk, USIZE_MAX, List.replicate]

/-! ## C2 -/

/-- The state reached by building a `WavSource` from 1 mono sample of
24 kHz PCM (`playback_scale = 48000 / 24000 = 2`, default loop range
`(0, usize::MAX)`) and then sending NoteOn at the source note 69. -/
def c2_s1 : WavSource :=
  { is_on := true, source_note := 69, source_channel_count := 1,
    loop_start_data_position := 0, loop_end_data_position := USIZE_MAX,
    data_position := 0, current_note := 69, source_data := [1],
    playback_scale := 2 }

/-- C2: after every `on_event` and `fill_buffer`, a sampler satisfies
`data_position ≤ source_data.len()`. REFUTED: with the reachable state
`c2_s1` (construction and NoteOn verified in the first conjunct), one
`fill_buffer` over a 2-frame buffer ends with `data_position = 2` while
`source_data.len() = 1`: the resampling loop in `stretch_buffer` recomputes
`src_index = (dst_index / 2 × rate) × channels` *after* its bounds check
(src/source/wav.rs lines 166-168), so with rate 2 it reports 2 source samples
advanced out of a 1-sample slice, and `fill_buffer` adds that overshoot to
`data_position` (line 255). -/
theorem c2_data_position_exceeds_data_length :
    (WavSource.new_from_data ⟨1, 24000, 32, .float⟩ 69 [1] none).map
        (fun s0 => s0.on_event (.note 69 (.noteOn 1))) = .ok c2_s1 ∧
      c2_s1.fill_buffer (List.replicate 4 0) =
        some ({ c2_s1 with data_position := 2 }, [1, 1, 0, 0], .ok) ∧
      ¬ ((2 : ℕ) ≤ c2_s1.source_data.length) := by
  refine ⟨?_, ?_, by norm_num [c2_s1]⟩
  · norm_num [WavSource.new_from_data, WavSource.new, WavSource.on_event,
      validate_spec, validate_loop_range, USIZE_MAX, PLAYBACK_SAMPLE_RATE,
      Except.map, c2_s1]
  · have htn : Int.toNat 2 = 2 := rfl
    norm_num [WavSource.fill_buffer, wav_fill_loop, stretch_buffer,
      stretch_loop, relative_pitch_ratio_of, rustUsizeOfRat,
      PLAYBACK_SAMPLE_RATE, USIZE_MAX, List.replicate, c2_s1, htn]

/-! ## C7 -/

/-- C7: a SoundFont forwards a NoteOn or NoteOff with key k exactly to the
children whose range contains k, forwards every other event to all children,
and `try_consume_event` always returns true. Each child's log gains the event
precisely when the spec-side routing predicate `specRoutesTo` holds. -/
theorem c7_soundfont_routes_by_range (f : SoundFont) (event : Message) :
    f.try_consume_event event =
      ({ f with ranges := f.ranges.map fun rc =>
          if specRoutesTo event rc.1 then (rc.1, rc.2 ++ [event]) else rc },
        true) := by
  obtain ⟨target, data⟩ := event
  cases data <;> simp [SoundFont.try_consume_event, specRoutesTo]

/-! ## C8 -/

theorem zipWith_add_replicate_zero :
    ∀ (b : List ℚ), b.zipWith (fun x y => x + y) (List.replicate b.length 0) = b
  | [] => rfl
  | x :: rest => by
    simp [List.replicate_succ, zipWith_add_replicate_zero rest]

/-- Running `square_loop` on an arbitrary initial buffer equals the run on an
all-zero buffer of the same length, added pointwise; the final phase agrees. -/
theorem square_loop_zip (pp dc ca l r : ℚ) :
    ∀ (b : List ℚ) (p : ℚ),
      square_loop pp dc ca l r p b =
        ((square_loop pp dc ca l r p (List.replicate b.length 0)).1,
          b.zipWith (fun x y => x + y)
            (square_loop pp dc ca l r p (List.replicate b.length 0)).2)
  | [], p => by simp [square_loop]
  | [b0], p => by simp [square_loop]
  | b0 :: b1 :: rest, p => by
    have ih := square_loop_zip pp dc ca l r rest
    simp only [square_loop, List.length_cons, List.replicate_succ, List.zipWith]
    rw [ih]
    simp

/-- C8: for every generator state and well-formed (even-length) stereo
buffer, `SquareWaveNode::fill_buffer` leaves the buffer untouched when
`is_on` is false, and otherwise accumulates: the result equals the initial
contents plus what the node would have written into a zeroed buffer of the
same length from the same state (and the node ends in the same state either
way). -/
theorem c8_generator_accumulates (s : SquareWaveNode) (b : List ℚ)
    (h : Even b.length) :
    (s.is_on = false → s.fill_buffer b = (s, b)) ∧
      s.fill_buffer b =
        ((s.fill_buffer (List.replicate b.length 0)).1,
          b.zipWith (fun x y => x + y)
            (s.fill_buffer (List.replicate b.length 0)).2) := by
  constructor
  · intro hoff
    simp [SquareWaveNode.fill_buffer, hoff]
  · cases hon : s.is_on with
    | false =>
      simp [SquareWaveNode.fill_buffer, hon, zipWith_add_replicate_zero]
    | true =>
      simp only [SquareWaveNode.fill_buffer, hon, Bool.true_eq_false,
        if_false, List.length_replicate]
      rw [square_loop_zip]

/-- A concrete playing square generator: frequency 12000 Hz (period 4
samples), full velocity and volume, duty 1/2, both channels. -/
def c8_sq : SquareWaveNode :=
  { node_id := 7, is_on := true, current_note := 69, current_frequency := 12000,
    balance := .both, cycle_progress_samples := 0,
    period_samples_a440 := 1200 / 11, peak_amplitude := 1,
    note_velocity := 1, modulated_volume := 1, duty_cycle := 1 / 2 }

theorem c8_generator_accumulates_witness :
    Even ([1, 2, 3, 4] : List ℚ).length ∧
      ((c8_sq.is_on = false → c8_sq.fill_buffer [1, 2, 3, 4] = (c8_sq, [1, 2, 3, 4])) ∧
        c8_sq.fill_buffer [1, 2, 3, 4] =
          ((c8_sq.fill_buffer (List.replicate ([1, 2, 3, 4] : List ℚ).length 0)).1,
            ([1, 2, 3, 4] : List ℚ).zipWith (fun x y => x + y)
              (c8_sq.fill_buffer (List.replicate ([1, 2, 3, 4] : List ℚ).length 0)).2)) :=
  ⟨by decide, c8_generator_accumulates c8_sq [1, 2, 3, 4] (by decide)⟩

/-! ## C10 -/

/-- C10: for a playing SquareWaveNode, a Broadcast-targeted NoteOff silences
it for *every* key (including keys other than the current note), the consume
call reports the event consumed, and a Node-targeted NoteOff silences it
exactly when the key equals the current note. -/
theorem c10_broadcast_noteoff_any_key_silences (freqOf : ℕ → ℚ)
    (s : SquareWaveNode) (m : ℕ) (v : ℚ) (id : ℕ) (h : s.is_on = true) :
    (SquareWaveNode.try_consume_event freqOf s ⟨.broadcast, .noteOff m v⟩).1.is_on = false ∧
      (SquareWaveNode.try_consume_event freqOf s ⟨.broadcast, .noteOff m v⟩).2 = true ∧
      (SquareWaveNode.try_consume_event freqOf s ⟨.node id, .noteOff m v⟩).1.is_on =
        (if m = s.current_note then false else true) := by
  refine ⟨?_, ?_, ?_⟩
  · simp [SquareWaveNode.try_consume_event]
  · simp [SquareWaveNode.try_consume_event]
  · by_cases hm : m = s.current_note <;>
      simp [SquareWaveNode.try_consume_event, hm, h]

/-- A playing generator holding note 60. -/
def c10_sq : SquareWaveNode :=
  { node_id := 1, is_on := true, current_note := 60, current_frequency := 440,
    balance := .both, cycle_progress_samples := 0,
    period_samples_a440 := 1200 / 11, peak_amplitude := 1 / 2,
    note_velocity := 1, modulated_volume := 1, duty_cycle := 1 / 2 }

theorem c10_broadcast_noteoff_any_key_silences_witness :
    (SquareWaveNode.try_consume_event (fun _ => 440) c10_sq
        ⟨.broadcast, .noteOff 61 0⟩).1.is_on = false ∧
      (SquareWaveNode.try_consume_event (fun _ => 440) c10_sq
        ⟨.broadcast, .noteOff 61 0⟩).2 = true ∧
      (SquareWaveNode.try_consume_event (fun _ => 440) c10_sq
        ⟨.node 5, .noteOff 61 0⟩).1.is_on =
        (if 61 = c10_sq.current_note then false else true) :=
  c10_broadcast_noteoff_any_key_silences (fun _ => 440) c10_sq 61 0 5 rfl
